import Mathlib

/-!
Verification of the juber ride-hailing dispatch platform.

Shallow embedding of the matching-relevant parts of the source:

* `src/surge-pricing.service.js` : `computeSurgeMultiplier`
* `src/services/driver-location.service.js` : `findNearbyDrivers`, `updateDriverStatus`
* `src/services/dispatch.service.js` : `createRideRequest`, `matchDriver`,
  `handleDriverResponse`, `checkTimeout`
* `src/controllers/trip.controller.js` : `cancelRide`
* `src/middleware/idempotency.js` : `idempotencyMiddleware`

JavaScript numbers are modelled as rationals (`ℚ`), timestamps as integer
milliseconds (`ℤ`), UUIDs as `Nat`/`String` identifiers supplied by the caller
(freshness of `uuidv4` is abstracted as an explicit argument), and the Redis /
Postgres state touched by the dispatch engine for a single ride as an explicit
`DispatchState` record.
-/

namespace Juber

/-! ### Configuration (src/config/index.js defaults) -/

/-- config.MAX_MATCH_ATTEMPTS, default 5. -/
def MAX_MATCH_ATTEMPTS : Nat := 5

/-- config.DRIVER_RESPONSE_TIMEOUT in milliseconds, default 15000. -/
def DRIVER_RESPONSE_TIMEOUT : ℤ := 15000

/-- config.DEFAULT_SEARCH_RADIUS_KM, default 5. -/
def DEFAULT_SEARCH_RADIUS_KM : ℚ := 5

/-- config.SURGE_MIN, default 1.0. -/
def SURGE_MIN : ℚ := 1

/-- config.SURGE_MAX, default 3.0. -/
def SURGE_MAX : ℚ := 3

/-! ### Surge pricing (surge-pricing.service.js) -/

/-- JavaScript `Math.round`: round half toward positive infinity. -/
def jsRound (x : ℚ) : ℤ := ⌊x + 1 / 2⌋

/-- `computeSurgeMultiplier(supply, demand)` from surge-pricing.service.js:
if both are zero return SURGE_MIN; if supply is zero return SURGE_MAX;
otherwise smooth the demand/supply quotient with factor 0.5, clamp to
[SURGE_MIN, SURGE_MAX] (max then min, as in the source), and round to one
decimal via `Math.round(surge * 10) / 10`. -/
def computeSurgeMultiplier (supply demand : Nat) : ℚ :=
  if supply = 0 ∧ demand = 0 then SURGE_MIN
  else if supply = 0 then SURGE_MAX
  else
    let rq : ℚ := (demand : ℚ) / (supply : ℚ)
    let smoothed : ℚ := 1 + (rq - 1) * (1 / 2)
    let clampedLo : ℚ := max SURGE_MIN smoothed
    let clamped : ℚ := min SURGE_MAX clampedLo
    (jsRound (clamped * 10) : ℚ) / 10

/-- Spec-side formula for the surge multiplier, written from the words of the
spec (§4.2): `raw = demand / supply` when supply > 0, `m = 1 + (raw − 1)·σ`
with σ = 0.5, clamped to [1.0, 3.0], rounded to one decimal; the edge cases
`supply=0 ∧ demand=0 → 1.0` and `supply=0 ∧ demand>0 → 3.0`. -/
def surgeSpecMultiplier (supply demand : Nat) : ℚ :=
  if supply = 0 ∧ demand = 0 then 1
  else if supply = 0 then 3
  else ((⌊(min 3 (max 1 (1 + ((demand : ℚ) / (supply : ℚ) - 1) * (1 / 2)))) * 10 + 1 / 2⌋ : ℤ) : ℚ) / 10

/-! ### Driver presence and proximity index (driver-location.service.js) -/

/-- One member of the Redis geo set `drivers:locations:region` as returned by
GEORADIUS WITHDIST WITHCOORD for a fixed query point: the member name, the
distance to the query point computed by Redis, and the stored coordinates. -/
structure GeoEntry where
  driverId : String
  distanceKm : ℚ
  lat : ℚ
  lng : ℚ
  deriving DecidableEq, Repr

/-- The hash `driver:id:meta` (fields absent in Redis are `none`). -/
structure DriverMeta where
  status : Option String := none
  vehicleType : Option String := none
  heading : Option ℚ := none
  speed : Option ℚ := none

/-- The Redis state read by `findNearbyDrivers` for one region and one query
point: the geo set (with per-member distances to the query point), the
presence keys `driver:id:presence`, and the meta hashes. -/
structure RedisGeo where
  entries : List GeoEntry
  presence : String → Bool
  meta : String → DriverMeta

/-- Comparison by distance used to order GEORADIUS ... ASC replies. -/
def distLE (a b : GeoEntry) : Prop := a.distanceKm ≤ b.distanceKm

instance : DecidableRel distLE := fun a b => inferInstanceAs (Decidable (a.distanceKm ≤ b.distanceKm))

instance : IsTotal GeoEntry distLE := ⟨fun a b => le_total a.distanceKm b.distanceKm⟩

instance : IsTrans GeoEntry distLE := ⟨fun _ _ _ hab hbc => le_trans hab hbc⟩

/-- Model of Redis `GEORADIUS key lng lat radius km WITHDIST WITHCOORD ASC
COUNT count`: the members within `radiusKm` of the query point, sorted
ascending by distance, truncated to the first `count`. -/
def georadius (entries : List GeoEntry) (radiusKm : ℚ) (count : Nat) : List GeoEntry :=
  ((entries.filter fun e => e.distanceKm ≤ radiusKm).insertionSort distLE).take count

/-- One element of the `drivers` array built by `findNearbyDrivers`. -/
structure NearbyDriver where
  driverId : String
  distanceKm : ℚ
  latitude : ℚ
  longitude : ℚ
  vehicleType : String
  status : String
  heading : ℚ
  speed : ℚ
  deriving DecidableEq, Repr

/-- The per-candidate filter of the loop in `findNearbyDrivers`: presence key
exists, `meta.status === 'ONLINE'`, and (when a vehicleType was requested)
`meta.vehicleType || 'ECONOMY'` equals it. -/
def passesFilters (g : RedisGeo) (vehicleType : Option String) (e : GeoEntry) : Bool :=
  g.presence e.driverId &&
  ((g.meta e.driverId).status == some "ONLINE") &&
  (match vehicleType with
   | none => true
   | some vt => ((g.meta e.driverId).vehicleType.getD "ECONOMY") == vt)

/-- The driver object pushed by `findNearbyDrivers` for a passing candidate. -/
def mkNearbyDriver (g : RedisGeo) (e : GeoEntry) : NearbyDriver :=
  { driverId := e.driverId
    distanceKm := e.distanceKm
    latitude := e.lat
    longitude := e.lng
    vehicleType := (g.meta e.driverId).vehicleType.getD "ECONOMY"
    status := (g.meta e.driverId).status.getD ""
    heading := (g.meta e.driverId).heading.getD 0
    speed := (g.meta e.driverId).speed.getD 0 }

/-- The `for ... of results` loop of `findNearbyDrivers`: walk the candidates
in order, keep the passing ones, and break once the array holds `limit`
drivers (`remaining` is `limit` minus the number already collected; the
source pushes and then breaks when `drivers.length >= limit`, so even with
`remaining = 0` one passing candidate is still pushed). -/
def collectNearby (g : RedisGeo) (vehicleType : Option String) :
    List GeoEntry → Nat → List NearbyDriver
  | [], _ => []
  | e :: rest, remaining =>
    if passesFilters g vehicleType e then
      if remaining ≤ 1 then [mkNearbyDriver g e]
      else mkNearbyDriver g e :: collectNearby g vehicleType rest (remaining - 1)
    else collectNearby g vehicleType rest remaining

/-- `findNearbyDrivers` from driver-location.service.js: GEORADIUS with
`COUNT limit * 2` ("Get extra to filter"), then the presence / status /
vehicle-type filter loop truncating at `limit`. -/
def findNearbyDrivers (g : RedisGeo) (radiusKm : ℚ) (vehicleType : Option String)
    (limit : Nat) : List NearbyDriver :=
  collectNearby g vehicleType (georadius g.entries radiusKm (limit * 2)) limit

/-- `updateDriverStatus` from driver-location.service.js: HSET of the single
field `status` on `driver:id:meta`. -/
def updateDriverStatus (g : RedisGeo) (driverId status : String) : RedisGeo :=
  { g with meta := fun id =>
      if id = driverId then { g.meta id with status := some status } else g.meta id }

/-! ### Dispatch engine (dispatch.service.js, trip.controller.js cancelRide)

State for a single ride request: the `ride_requests` row, its `driver_offers`
rows, the fast-lookup Redis entry `ride:rideId:offer`, the presence of the
per-ride lock key `lock:ride:rideId` described by the documentation, and the
driver-location Redis state (written on acceptance via `updateDriverStatus`).
Event publishing is fire-and-forget and carries no state, so it is omitted;
`responded_at` timestamps are not consulted by any code path and are omitted
from the offer rows. -/

/-- Values of `ride_requests.status` used by the code. -/
inductive RideStatus
  | PENDING
  | MATCHING
  | DRIVER_OFFERED
  | ACCEPTED
  | NO_DRIVERS
  | FAILED
  | EXPIRED
  | CANCELLED
  deriving DecidableEq, Repr

/-- Values of `driver_offers.status`. -/
inductive OfferStatus
  | PENDING
  | ACCEPTED
  | DECLINED
  | EXPIRED
  deriving DecidableEq, Repr

/-- A `driver_offers` row for the ride (offer ids abstract the UUIDs). -/
structure OfferRow where
  offerId : Nat
  driverId : String
  status : OfferStatus
  declineReason : Option String
  deriving DecidableEq, Repr

/-- The matching-relevant columns of the `ride_requests` row.  The column
`match_attempts` has SQL default 0 and `status` is inserted as 'MATCHING' by
`createRideRequest`. -/
structure RideRow where
  status : RideStatus
  driverId : Option String
  currentOfferId : Option Nat
  matchAttempts : Nat
  tier : Option String
  deriving DecidableEq, Repr

/-- The JSON value stored under `ride:rideId:offer` for fast timeout checks. -/
structure OfferEntry where
  offerId : Nat
  driverId : String
  expiresAt : ℤ
  deriving DecidableEq, Repr

/-- The mutable state touched by the dispatch engine for one ride. -/
structure DispatchState where
  geo : RedisGeo
  ride : RideRow
  offers : List OfferRow
  redisOffer : Option OfferEntry
  lockHeld : Bool

/-- The `matchedDriver` summary returned by `matchDriver` (eta is
`Math.ceil(distanceKm * 2)`). -/
structure DriverSummary where
  driverId : String
  distanceKm : ℚ
  eta : ℤ
  deriving DecidableEq, Repr

/-- Return value of `matchDriver`. -/
structure MatchResult where
  driver : Option DriverSummary
  matched : Bool
  deriving DecidableEq, Repr

/-- `matchDriver(rideRequest, region)` from dispatch.service.js: find nearby
drivers (radius 5 km, the ride's tier, limit 10); if none, set the ride row to
NO_DRIVERS and return no driver; otherwise select `drivers[0]`, insert a
PENDING offer row, update the ride row (`current_driver_offer_id`,
`driver_id`, `match_attempts = match_attempts + 1`; the status column is not
touched), and store the fast-lookup entry with expiry now + 15 s.  The fresh
offer UUID is passed in as `newOfferId`. -/
def matchDriver (now : ℤ) (newOfferId : Nat) (st : DispatchState) :
    DispatchState × MatchResult :=
  match findNearbyDrivers st.geo DEFAULT_SEARCH_RADIUS_KM st.ride.tier 10 with
  | [] =>
    ({ st with ride := { st.ride with status := RideStatus.NO_DRIVERS } },
     { driver := none, matched := false })
  | sel :: _ =>
    ({ st with
        offers := st.offers ++ [⟨newOfferId, sel.driverId, OfferStatus.PENDING, none⟩]
        ride := { st.ride with
                    currentOfferId := some newOfferId
                    driverId := some sel.driverId
                    matchAttempts := st.ride.matchAttempts + 1 }
        redisOffer := some ⟨newOfferId, sel.driverId, now + DRIVER_RESPONSE_TIMEOUT⟩ },
     { driver := some ⟨sel.driverId, sel.distanceKm, ⌈sel.distanceKm * 2⌉⟩, matched := true })

/-- Driver actions accepted by the driver-response endpoint. -/
inductive RespAction
  | ACCEPT
  | DECLINE
  deriving DecidableEq, Repr

/-- The JSON results `handleDriverResponse` can return. -/
inductive DispatchResponse
  | accepted (driverId : String)
  | expired (reason : String)
  | reassigned
  deriving DecidableEq, Repr

/-- The SQL UPDATE of the DECLINE branch: set this driver's offer rows for
the ride to DECLINED with `decline_reason = reason || 'Not specified'` (the
UPDATE matches on ride and driver id only). -/
def declineOffers (st : DispatchState) (driverId : String) (reason : Option String) :
    DispatchState :=
  { st with offers := st.offers.map fun o =>
      if o.driverId = driverId then
        { o with status := OfferStatus.DECLINED
                 declineReason := some (reason.getD "Not specified") }
      else o }

/-- `handleDriverResponse(rideId, driverId, action, reason)` from
dispatch.service.js, for an existing ride (the not-found throw is outside this
single-ride state).  ACCEPT: set the ride row ACCEPTED with this driver, mark
this driver's offer rows ACCEPTED (the UPDATE matches on ride and driver id
only), set the driver meta status ON_TRIP, delete the fast-lookup entry, and
return accepted.  DECLINE: mark this driver's offer rows DECLINED with the
reason (`reason || 'Not specified'`); if the loaded `match_attempts` is at
least MAX_MATCH_ATTEMPTS, set the ride EXPIRED and return the max-attempts
result; otherwise compute the declined-driver list, re-run the nearby query,
and if no candidate survives the exclusion filter set the ride EXPIRED, else
call `matchDriver` (which performs its own, unfiltered query) and return
reassigned. -/
def handleDriverResponse (now : ℤ) (newOfferId : Nat) (st : DispatchState)
    (driverId : String) (action : RespAction) (reason : Option String) :
    DispatchState × DispatchResponse :=
  match action with
  | RespAction.ACCEPT =>
    ({ st with
        ride := { st.ride with status := RideStatus.ACCEPTED, driverId := some driverId }
        offers := st.offers.map fun o =>
          if o.driverId = driverId then { o with status := OfferStatus.ACCEPTED } else o
        geo := updateDriverStatus st.geo driverId "ON_TRIP"
        redisOffer := none },
     DispatchResponse.accepted driverId)
  | RespAction.DECLINE =>
    let st1 : DispatchState := declineOffers st driverId reason
    if MAX_MATCH_ATTEMPTS ≤ st1.ride.matchAttempts then
      ({ st1 with ride := { st1.ride with status := RideStatus.EXPIRED } },
       DispatchResponse.expired "Max match attempts reached")
    else
      let declinedDrivers :=
        (st1.offers.filter fun o => o.status = OfferStatus.DECLINED).map (·.driverId)
      let drivers := findNearbyDrivers st1.geo DEFAULT_SEARCH_RADIUS_KM st1.ride.tier 10
      let availableDrivers := drivers.filter fun d => ¬ declinedDrivers.contains d.driverId
      if availableDrivers.isEmpty then
        ({ st1 with ride := { st1.ride with status := RideStatus.EXPIRED } },
         DispatchResponse.expired "No available drivers")
      else
        ((matchDriver now newOfferId st1).1, DispatchResponse.reassigned)

/-- `checkTimeout(rideId)` from dispatch.service.js: read the fast-lookup
entry; when it is absent, return timedOut = false; when it is present and its
`expiresAt` has passed, process an implicit decline with reason "Timeout" and
return timedOut = true; otherwise return timedOut = false. -/
def checkTimeout (now : ℤ) (newOfferId : Nat) (st : DispatchState) :
    DispatchState × Bool :=
  match st.redisOffer with
  | none => (st, false)
  | some offer =>
    if offer.expiresAt < now then
      ((handleDriverResponse now newOfferId st offer.driverId RespAction.DECLINE
          (some "Timeout")).1, true)
    else (st, false)

/-- The literal response object built at the end of `createRideRequest`
(surge / fare fields are modelled separately by `computeSurgeMultiplier` and
do not interact with matching). -/
structure CreateRideResult where
  status : String
  matchedDriver : Option DriverSummary
  matchAttempts : Nat
  deriving DecidableEq, Repr

/-- `createRideRequest` from dispatch.service.js, restricted to its
matching-relevant effects: insert the ride row with status 'MATCHING' (the
`match_attempts` column takes its SQL default 0), run `matchDriver`
synchronously, and return an object whose `status` field is the literal
string 'MATCHING' and whose `matchAttempts` field is the literal 1. -/
def createRideRequest (g : RedisGeo) (tier : Option String) (now : ℤ)
    (newOfferId : Nat) : DispatchState × CreateRideResult :=
  let st0 : DispatchState :=
    { geo := g
      ride := { status := RideStatus.MATCHING, driverId := none, currentOfferId := none,
                matchAttempts := 0, tier := tier }
      offers := []
      redisOffer := none
      lockHeld := false }
  let res := matchDriver now newOfferId st0
  (res.1, { status := "MATCHING", matchedDriver := res.2.driver, matchAttempts := 1 })

/-- `cancelRide` from trip.controller.js: a single unconditional
`UPDATE ride_requests SET status = 'CANCELLED' WHERE id = $1`. -/
def cancelRide (st : DispatchState) : DispatchState :=
  { st with ride := { st.ride with status := RideStatus.CANCELLED } }

/-- One externally triggered dispatch mutation on a ride. -/
inductive DispatchOp
  | respond (driverId : String) (action : RespAction) (reason : Option String) (newOfferId : Nat)
  | timeout (newOfferId : Nat)
  | cancel
  | setDriverStatus (driverId status : String)

/-- Apply one dispatch operation to the state. -/
def dispatchStep (now : ℤ) (op : DispatchOp) (st : DispatchState) : DispatchState :=
  match op with
  | DispatchOp.respond d a r i => (handleDriverResponse now i st d a r).1
  | DispatchOp.timeout i => (checkTimeout now i st).1
  | DispatchOp.cancel => cancelRide st
  | DispatchOp.setDriverStatus d s => { st with geo := updateDriverStatus st.geo d s }

/-- Run a timed sequence of dispatch operations. -/
def runDispatch : List (ℤ × DispatchOp) → DispatchState → DispatchState
  | [], st => st
  | (now, op) :: rest, st => runDispatch rest (dispatchStep now op st)

/-! ### Idempotency middleware (src/middleware/idempotency.js)

The middleware keys a cache entry `idempotency:key` holding the request hash
and the response that the wrapped handler produced on the first call.  The
hash is `sha256(JSON.stringify({method, path, body})).substring(0, 16)`; the
SHA-256 digest itself is not expressible in this embedding, so the hash is a
parameter `h` — a deterministic function of the request, exactly what the
comparison logic uses. -/

/-- The request fields hashed by `hashRequest`. -/
structure IdemRequest where
  method : String
  path : String
  body : String
  deriving DecidableEq, Repr

/-- A cached entry `idempotency:key` : statusCode, response body, request hash. -/
structure CachedResponse where
  statusCode : Nat
  body : String
  requestHash : String
  deriving DecidableEq, Repr

/-- Outcome of one request through the middleware. -/
inductive IdemOutcome
  | fresh (statusCode : Nat) (body : String)
  | replayed (body : String)
  | conflict
  deriving DecidableEq, Repr

/-- One pass of `idempotencyMiddleware` for a request carrying a key whose
cache slot is `cache`: with a cached entry, a differing request hash yields
HTTP 422 `conflict` (handler not run, cache unchanged); a matching hash
replays the cached body with HTTP 200 (handler not run).  With no cached
entry the handler runs and its response is cached along with the request
hash (`fresh` carries the handler's own status code). -/
def idempotencyStep (h : IdemRequest → String) (cache : Option CachedResponse)
    (handler : IdemRequest → Nat × String) (req : IdemRequest) :
    Option CachedResponse × IdemOutcome :=
  match cache with
  | some c =>
    if c.requestHash ≠ h req then (some c, IdemOutcome.conflict)
    else (some c, IdemOutcome.replayed c.body)
  | none =>
    let resp := handler req
    (some ⟨resp.1, resp.2, h req⟩, IdemOutcome.fresh resp.1 resp.2)

/-! ### Concrete fixtures used by witnesses and counterexamples -/

/-- Region state with no drivers at all. -/
def gEmpty : RedisGeo :=
  { entries := [], presence := fun _ => false, meta := fun _ => {} }

/-- Region state with two eligible ECONOMY drivers: D1 at distance 0 (closer)
and D2 at distance 1, both ONLINE with live presence. -/
def gW2 : RedisGeo :=
  { entries := [⟨"D1", 0, 0, 0⟩, ⟨"D2", 1, 0, 0⟩]
    presence := fun id => id = "D1" ∨ id = "D2"
    meta := fun id =>
      if id = "D1" ∨ id = "D2" then
        { status := some "ONLINE", vehicleType := some "ECONOMY" }
      else {} }

/-- State of the two-driver ride just after creation: offer 1 is PENDING for
the nearest driver D1. -/
def stW2 : DispatchState := (createRideRequest gW2 (some "ECONOMY") 0 1).1

/-- The two-driver state while another handler holds `lock:ride:rideId`. -/
def stLockFixture : DispatchState := { stW2 with lockHeld := true }

/-- The two-driver state after the fast-lookup offer entry's TTL evicted it. -/
def stEvicted : DispatchState := { stW2 with redisOffer := none }

/-- The two-driver state with the match-attempt budget exhausted. -/
def stMaxFixture : DispatchState :=
  { stW2 with ride := { stW2.ride with matchAttempts := MAX_MATCH_ATTEMPTS } }

/-- The two-driver state after D1 accepted: the ride is ACCEPTED (terminal). -/
def stAccepted : DispatchState :=
  (handleDriverResponse 0 2 stW2 "D1" RespAction.ACCEPT none).1

/-- Region state for the proximity counterexample: the two nearest geo-set
members d0 and d1 have no presence marker, while d2 (distance 2 km) is ONLINE
with live presence. -/
def gW3 : RedisGeo :=
  { entries := [⟨"d0", 0, 0, 0⟩, ⟨"d1", 1, 0, 0⟩, ⟨"d2", 2, 0, 0⟩]
    presence := fun id => id = "d2"
    meta := fun id => if id = "d2" then { status := some "ONLINE" } else {} }

/-- A stand-in deterministic request hash for idempotency witnesses. -/
def hashFixture (r : IdemRequest) : String := r.body

/-- A ride-creation handler producing a fixed 201 response. -/
def handlerFixture (_ : IdemRequest) : Nat × String := (201, "ride-created")

/-- First create-ride request. -/
def reqA : IdemRequest := ⟨"POST", "/api/v1/rides", "pickup-x"⟩

/-- Retry of `reqA` with the identical body. -/
def reqA2 : IdemRequest := ⟨"POST", "/api/v1/rides", "pickup-x"⟩

/-- Request reusing the key with a different body. -/
def reqB : IdemRequest := ⟨"POST", "/api/v1/rides", "pickup-y"⟩

/-! ### Theorems -/

/-- Bounds of the rounded-to-one-decimal value of a quantity in [1, 3]. -/
theorem jsRound_tenth_bounds (v : ℚ) (h1 : 1 ≤ v) (h3 : v ≤ 3) :
    1 ≤ ((jsRound (v * 10) : ℤ) : ℚ) / 10 ∧ ((jsRound (v * 10) : ℤ) : ℚ) / 10 ≤ 3 ∧
      ∃ k : ℤ, ((jsRound (v * 10) : ℤ) : ℚ) / 10 = (k : ℚ) / 10 := by
  have hlow : (10 : ℤ) ≤ jsRound (v * 10) := by
    rw [jsRound, Int.le_floor]
    push_cast
    linarith
  have hfl : ((jsRound (v * 10) : ℤ) : ℚ) ≤ v * 10 + 1 / 2 := Int.floor_le _
  have hhigh : jsRound (v * 10) ≤ 30 := by
    have h31 : ((jsRound (v * 10) : ℤ) : ℚ) < 31 := by linarith
    have : jsRound (v * 10) < 31 := by exact_mod_cast h31
    omega
  have hlq : ((10 : ℤ) : ℚ) ≤ ((jsRound (v * 10) : ℤ) : ℚ) := by exact_mod_cast hlow
  have hhq : ((jsRound (v * 10) : ℤ) : ℚ) ≤ ((30 : ℤ) : ℚ) := by exact_mod_cast hhigh
  refine ⟨by push_cast at hlq ⊢; linarith, by push_cast at hhq ⊢; linarith,
    ⟨jsRound (v * 10), rfl⟩⟩

/-- C6: computeSurgeMultiplier equals the spec formula
round-to-one-decimal(clamp(1 + (demand/supply − 1)·0.5, 1.0, 3.0)) for
supply > 0 and matches the spec edge cases at supply = 0; the quoted
boundary values hold; and every result lies in [1.0, 3.0] and is an integer
multiple of 0.1. -/
theorem computeSurgeMultiplier_spec :
    (∀ supply demand : Nat,
       computeSurgeMultiplier supply demand = surgeSpecMultiplier supply demand) ∧
    computeSurgeMultiplier 0 0 = 1 ∧
    (∀ demand : Nat, 0 < demand → computeSurgeMultiplier 0 demand = 3) ∧
    computeSurgeMultiplier 10 10 = 1 ∧
    computeSurgeMultiplier 1 100 = 3 ∧
    (∀ supply demand : Nat,
       1 ≤ computeSurgeMultiplier supply demand ∧
       computeSurgeMultiplier supply demand ≤ 3 ∧
       ∃ k : ℤ, computeSurgeMultiplier supply demand = (k : ℚ) / 10) := by
  refine ⟨?_, by norm_num [computeSurgeMultiplier, SURGE_MIN], ?_,
    by norm_num [computeSurgeMultiplier, jsRound, SURGE_MIN, SURGE_MAX],
    by norm_num [computeSurgeMultiplier, jsRound, SURGE_MIN, SURGE_MAX], ?_⟩
  · intro supply demand
    simp only [computeSurgeMultiplier, surgeSpecMultiplier, jsRound, SURGE_MIN, SURGE_MAX]
  · intro demand hd
    have hd0 : demand ≠ 0 := by omega
    simp [computeSurgeMultiplier, hd0, SURGE_MAX]
  · intro supply demand
    unfold computeSurgeMultiplier
    split
    · exact ⟨le_refl _, by norm_num [SURGE_MIN], ⟨10, by norm_num [SURGE_MIN]⟩⟩
    · split
      · exact ⟨by norm_num [SURGE_MAX], le_refl _, ⟨30, by norm_num [SURGE_MAX]⟩⟩
      · dsimp only
        exact jsRound_tenth_bounds _
          (le_min (by norm_num [SURGE_MAX])
            (le_trans (by norm_num [SURGE_MIN]) (le_max_left _ _)))
          (le_trans (min_le_left _ _) (by norm_num [SURGE_MAX]))

/-- C6 witness: the supply = 0, demand > 0 edge case evaluated at demand = 1. -/
theorem computeSurgeMultiplier_spec_witness :
    (0 : Nat) < 1 ∧ computeSurgeMultiplier 0 1 = 3 :=
  ⟨by decide, computeSurgeMultiplier_spec.2.2.1 1 (by decide)⟩

/-- The candidate loop keeps the first `limit` passing candidates, in order. -/
theorem collectNearby_eq_take_filter (g : RedisGeo) (vt : Option String) :
    ∀ (l : List GeoEntry) (limit : Nat), 1 ≤ limit →
      collectNearby g vt l limit =
        ((l.filter (passesFilters g vt)).take limit).map (mkNearbyDriver g) := by
  intro l
  induction l with
  | nil => intro limit _; simp [collectNearby]
  | cons e rest ih =>
    intro limit hlim
    by_cases hp : passesFilters g vt e
    · rw [collectNearby, if_pos hp, List.filter_cons_of_pos hp]
      by_cases h1 : limit ≤ 1
      · have hl1 : limit = 1 := by omega
        subst hl1
        simp [List.take_succ_cons]
      · rw [if_neg h1, ih (limit - 1) (by omega)]
        obtain ⟨n, rfl⟩ : ∃ n, limit = n + 1 := ⟨limit - 1, by omega⟩
        simp [List.take_succ_cons]
    · rw [collectNearby, if_neg hp, List.filter_cons_of_neg hp, ih limit hlim]

/-- The modelled GEORADIUS reply is sorted ascending by distance. -/
theorem georadius_sorted (entries : List GeoEntry) (radiusKm : ℚ) (count : Nat) :
    List.Sorted distLE (georadius entries radiusKm count) := by
  have hs : List.Sorted distLE
      ((entries.filter fun e => e.distanceKm ≤ radiusKm).insertionSort distLE) :=
    List.sorted_insertionSort distLE _
  exact hs.sublist (List.take_sublist _ _)

/-- Members of the modelled GEORADIUS reply come from the geo set and lie
within the radius. -/
theorem georadius_mem {entries : List GeoEntry} {radiusKm : ℚ} {count : Nat}
    {e : GeoEntry} (he : e ∈ georadius entries radiusKm count) :
    e ∈ entries ∧ e.distanceKm ≤ radiusKm := by
  have h1 : e ∈ (entries.filter fun x => x.distanceKm ≤ radiusKm).insertionSort distLE :=
    (List.take_sublist _ _).mem he
  rw [List.mem_insertionSort] at h1
  have h2 := List.mem_filter.mp h1
  exact ⟨h2.1, by simpa using h2.2⟩

/-- Unpacking of the per-candidate filter. -/
theorem passesFilters_spec {g : RedisGeo} {vt : Option String} {e : GeoEntry}
    (h : passesFilters g vt e = true) :
    g.presence e.driverId = true ∧ (g.meta e.driverId).status = some "ONLINE" ∧
      ∀ t, vt = some t → (g.meta e.driverId).vehicleType.getD "ECONOMY" = t := by
  simp only [passesFilters, Bool.and_eq_true, beq_iff_eq] at h
  refine ⟨h.1.1, h.1.2, ?_⟩
  intro t ht
  subst ht
  simpa using h.2

/-- Every returned driver is a within-radius geo-set member that passed the
presence / status / vehicle-type gate. -/
theorem findNearbyDrivers_sound (g : RedisGeo) (radiusKm : ℚ) (vt : Option String)
    (limit : Nat) (hlim : 1 ≤ limit) :
    ∀ d ∈ findNearbyDrivers g radiusKm vt limit,
      ∃ e ∈ g.entries, e.driverId = d.driverId ∧ e.distanceKm ≤ radiusKm ∧
        d.distanceKm = e.distanceKm ∧ g.presence d.driverId = true ∧
        (g.meta d.driverId).status = some "ONLINE" ∧ d.status = "ONLINE" ∧
        ∀ t, vt = some t → d.vehicleType = t := by
  intro d hd
  rw [findNearbyDrivers, collectNearby_eq_take_filter g vt _ limit hlim] at hd
  obtain ⟨e, he, rfl⟩ := List.mem_map.mp hd
  have he1 : e ∈ (georadius g.entries radiusKm (limit * 2)).filter (passesFilters g vt) :=
    (List.take_sublist _ _).mem he
  have he2 := List.mem_filter.mp he1
  obtain ⟨hent, hrad⟩ := georadius_mem he2.1
  obtain ⟨hpres, hstat, hvt⟩ := passesFilters_spec he2.2
  refine ⟨e, hent, rfl, hrad, rfl, hpres, hstat, ?_, ?_⟩
  · simp [mkNearbyDriver, hstat]
  · intro t ht
    simp [mkNearbyDriver, hvt t ht]

/-- The returned list is sorted ascending by distance. -/
theorem findNearbyDrivers_sorted (g : RedisGeo) (radiusKm : ℚ) (vt : Option String)
    (limit : Nat) (hlim : 1 ≤ limit) :
    List.Sorted (fun a b : NearbyDriver => a.distanceKm ≤ b.distanceKm)
      (findNearbyDrivers g radiusKm vt limit) := by
  rw [findNearbyDrivers, collectNearby_eq_take_filter g vt _ limit hlim]
  have h0 : List.Sorted distLE (georadius g.entries radiusKm (limit * 2)) :=
    georadius_sorted _ _ _
  have h1 : List.Sorted distLE ((georadius g.entries radiusKm (limit * 2)).filter
      (passesFilters g vt)) := h0.sublist (List.filter_sublist _)
  have h2 : List.Sorted distLE (((georadius g.entries radiusKm (limit * 2)).filter
      (passesFilters g vt)).take limit) := h1.sublist (List.take_sublist _ _)
  rw [List.Sorted, List.pairwise_map]
  exact h2.imp fun hab => hab

/-- C7 (amended): every driver returned by findNearbyDrivers lies within the
radius, is ONLINE with a live presence marker, and matches the requested
vehicle tier; the list is sorted ascending by distance and holds at most
`limit` entries.  Completeness holds only relative to the `2 * limit`
nearest within-radius geo-set members fetched by GEORADIUS COUNT: the result
is exactly the first `limit` of those that pass the eligibility filter
(eligible drivers beyond that window can be missed, see the
counterexample). -/
theorem findNearbyDrivers_amended (g : RedisGeo) (radiusKm : ℚ) (vt : Option String)
    (limit : Nat) (hlim : 1 ≤ limit) :
    (∀ d ∈ findNearbyDrivers g radiusKm vt limit,
       ∃ e ∈ g.entries, e.driverId = d.driverId ∧ e.distanceKm ≤ radiusKm ∧
         d.distanceKm = e.distanceKm ∧ g.presence d.driverId = true ∧
         (g.meta d.driverId).status = some "ONLINE" ∧ d.status = "ONLINE" ∧
         ∀ t, vt = some t → d.vehicleType = t) ∧
    List.Sorted (fun a b : NearbyDriver => a.distanceKm ≤ b.distanceKm)
      (findNearbyDrivers g radiusKm vt limit) ∧
    (findNearbyDrivers g radiusKm vt limit).length ≤ limit ∧
    findNearbyDrivers g radiusKm vt limit =
      (((georadius g.entries radiusKm (limit * 2)).filter (passesFilters g vt)).take
        limit).map (mkNearbyDriver g) := by
  refine ⟨findNearbyDrivers_sound g radiusKm vt limit hlim,
    findNearbyDrivers_sorted g radiusKm vt limit hlim, ?_, ?_⟩
  · rw [findNearbyDrivers, collectNearby_eq_take_filter g vt _ limit hlim]
    simp only [List.length_map, List.length_take]
    exact Nat.min_le_left _ _
  · rw [findNearbyDrivers, collectNearby_eq_take_filter g vt _ limit hlim]

/-- C7 witness: the amended theorem applied to the two-driver region with the
caller's limit 10. -/
theorem findNearbyDrivers_amended_witness :
    (1 : Nat) ≤ 10 ∧ (findNearbyDrivers gW2 5 (some "ECONOMY") 10).length ≤ 10 :=
  ⟨by decide, (findNearbyDrivers_amended gW2 5 (some "ECONOMY") 10 (by decide)).2.2.1⟩

/-- C7 counterexample: in `gW3` the driver d2 is in the region's geo set,
within the 5 km radius, ONLINE with live presence, yet the returned list is
empty (shorter than the limit): the GEORADIUS COUNT `limit * 2` window is
exhausted by the two nearer, ineligible members before the filter runs.
This refutes the claim that every eligible in-radius driver appears in the
result up to the limit. -/
theorem findNearbyDrivers_misses_eligible :
    findNearbyDrivers gW3 5 none 1 = [] ∧
    (⟨"d2", 2, 0, 0⟩ : GeoEntry) ∈ gW3.entries ∧
    (2 : ℚ) ≤ 5 ∧ gW3.presence "d2" = true ∧
    (gW3.meta "d2").status = some "ONLINE" ∧
    (findNearbyDrivers gW3 5 none 1).length < 1 := by
  decide

/-- The lock flag is untouched by `matchDriver`. -/
theorem matchDriver_lockHeld (now : ℤ) (i : Nat) (st : DispatchState) :
    (matchDriver now i st).1.lockHeld = st.lockHeld := by
  rw [matchDriver]
  split <;> rfl

/-- `matchDriver` never decreases `match_attempts`. -/
theorem matchDriver_attempts_ge (now : ℤ) (i : Nat) (st : DispatchState) :
    st.ride.matchAttempts ≤ (matchDriver now i st).1.ride.matchAttempts := by
  rw [matchDriver]
  split
  · exact le_refl _
  · exact Nat.le_succ _

/-- `matchDriver` increases `match_attempts` by at most one. -/
theorem matchDriver_attempts_le (now : ℤ) (i : Nat) (st : DispatchState) :
    (matchDriver now i st).1.ride.matchAttempts ≤ st.ride.matchAttempts + 1 := by
  rw [matchDriver]
  split
  · exact Nat.le_succ _
  · exact le_refl _

/-- `handleDriverResponse` never decreases `match_attempts`. -/
theorem hdr_attempts_ge (now : ℤ) (i : Nat) (st : DispatchState) (d : String)
    (a : RespAction) (r : Option String) :
    st.ride.matchAttempts ≤ (handleDriverResponse now i st d a r).1.ride.matchAttempts := by
  cases a with
  | ACCEPT => exact le_refl _
  | DECLINE =>
    rw [handleDriverResponse]
    dsimp only
    split
    · exact le_refl _
    · split
      · exact le_refl _
      · dsimp only
        exact matchDriver_attempts_ge now i (declineOffers st d r)

/-- `handleDriverResponse` keeps `match_attempts` within the budget: a new
offer is only created after the `match_attempts >= MAX_MATCH_ATTEMPTS` guard
has failed. -/
theorem hdr_attempts_bounded (now : ℤ) (i : Nat) (st : DispatchState) (d : String)
    (a : RespAction) (r : Option String)
    (h : st.ride.matchAttempts ≤ MAX_MATCH_ATTEMPTS) :
    (handleDriverResponse now i st d a r).1.ride.matchAttempts ≤ MAX_MATCH_ATTEMPTS := by
  cases a with
  | ACCEPT => exact h
  | DECLINE =>
    rw [handleDriverResponse]
    dsimp only
    split
    · exact h
    · next hlt =>
      have hlt2 : ¬ MAX_MATCH_ATTEMPTS ≤ st.ride.matchAttempts := hlt
      split
      · exact h
      · dsimp only
        refine le_trans (matchDriver_attempts_le now i (declineOffers st d r)) ?_
        omega

/-- `checkTimeout` never decreases `match_attempts`. -/
theorem checkTimeout_attempts_ge (now : ℤ) (i : Nat) (st : DispatchState) :
    st.ride.matchAttempts ≤ (checkTimeout now i st).1.ride.matchAttempts := by
  rw [checkTimeout]
  split
  · exact le_refl _
  · split
    · exact hdr_attempts_ge now i st _ RespAction.DECLINE _
    · exact le_refl _

/-- `checkTimeout` keeps `match_attempts` within the budget. -/
theorem checkTimeout_attempts_bounded (now : ℤ) (i : Nat) (st : DispatchState)
    (h : st.ride.matchAttempts ≤ MAX_MATCH_ATTEMPTS) :
    (checkTimeout now i st).1.ride.matchAttempts ≤ MAX_MATCH_ATTEMPTS := by
  rw [checkTimeout]
  split
  · exact h
  · split
    · exact hdr_attempts_bounded now i st _ RespAction.DECLINE _ h
    · exact h

/-- Any single dispatch operation never decreases `match_attempts`. -/
theorem dispatchStep_attempts_ge (now : ℤ) (op : DispatchOp) (st : DispatchState) :
    st.ride.matchAttempts ≤ (dispatchStep now op st).ride.matchAttempts := by
  cases op with
  | respond d a r i => exact hdr_attempts_ge now i st d a r
  | timeout i => exact checkTimeout_attempts_ge now i st
  | cancel => exact le_refl _
  | setDriverStatus d s => exact le_refl _

/-- Any single dispatch operation keeps `match_attempts` within the budget. -/
theorem dispatchStep_attempts_bounded (now : ℤ) (op : DispatchOp) (st : DispatchState)
    (h : st.ride.matchAttempts ≤ MAX_MATCH_ATTEMPTS) :
    (dispatchStep now op st).ride.matchAttempts ≤ MAX_MATCH_ATTEMPTS := by
  cases op with
  | respond d a r i => exact hdr_attempts_bounded now i st d a r h
  | timeout i => exact checkTimeout_attempts_bounded now i st h
  | cancel => exact h
  | setDriverStatus d s => exact h

/-- Bounded `match_attempts` is preserved by every operation sequence. -/
theorem runDispatch_attempts_bounded :
    ∀ (ops : List (ℤ × DispatchOp)) (st : DispatchState),
      st.ride.matchAttempts ≤ MAX_MATCH_ATTEMPTS →
      (runDispatch ops st).ride.matchAttempts ≤ MAX_MATCH_ATTEMPTS := by
  intro ops
  induction ops with
  | nil => intro st h; exact h
  | cons p rest ih =>
    intro st h
    exact ih _ (dispatchStep_attempts_bounded p.1 p.2 st h)

/-- A freshly created ride starts within the attempt budget. -/
theorem createRideRequest_attempts_le (g : RedisGeo) (tier : Option String) (now : ℤ)
    (i : Nat) :
    (createRideRequest g tier now i).1.ride.matchAttempts ≤ MAX_MATCH_ATTEMPTS := by
  rw [createRideRequest]
  dsimp only
  refine le_trans (matchDriver_attempts_le now i _) ?_
  norm_num [MAX_MATCH_ATTEMPTS]

/-- A decline arriving with the attempt budget exhausted expires the ride
with the max-attempts reason and creates no further offer. -/
theorem hdr_decline_at_max (now : ℤ) (i : Nat) (st : DispatchState) (d : String)
    (r : Option String) (h : MAX_MATCH_ATTEMPTS ≤ st.ride.matchAttempts) :
    (handleDriverResponse now i st d RespAction.DECLINE r).2 =
        DispatchResponse.expired "Max match attempts reached" ∧
      (handleDriverResponse now i st d RespAction.DECLINE r).1.ride.status =
        RideStatus.EXPIRED := by
  rw [handleDriverResponse]
  dsimp only
  split
  · exact ⟨rfl, rfl⟩
  · next hneg => exact absurd h hneg

/-- C8: over every sequence of dispatch operations starting from ride
creation, `matchAttempts` never decreases and never exceeds
MAX_MATCH_ATTEMPTS = 5; every offer creation inside `matchDriver` increments
it by exactly one; and a decline arriving when `matchAttempts` has reached
the budget sets the ride to EXPIRED with reason "Max match attempts
reached" instead of creating another offer. -/
theorem matchAttempts_invariant :
    (∀ (now : ℤ) (op : DispatchOp) (st : DispatchState),
       st.ride.matchAttempts ≤ (dispatchStep now op st).ride.matchAttempts) ∧
    (∀ (now : ℤ) (op : DispatchOp) (st : DispatchState),
       st.ride.matchAttempts ≤ MAX_MATCH_ATTEMPTS →
       (dispatchStep now op st).ride.matchAttempts ≤ MAX_MATCH_ATTEMPTS) ∧
    (∀ (g : RedisGeo) (tier : Option String) (now : ℤ) (i : Nat)
       (ops : List (ℤ × DispatchOp)),
       (runDispatch ops (createRideRequest g tier now i).1).ride.matchAttempts ≤
         MAX_MATCH_ATTEMPTS) ∧
    (∀ (now : ℤ) (i : Nat) (st : DispatchState) (sel : NearbyDriver)
       (rest : List NearbyDriver),
       findNearbyDrivers st.geo DEFAULT_SEARCH_RADIUS_KM st.ride.tier 10 = sel :: rest →
       (matchDriver now i st).1.ride.matchAttempts = st.ride.matchAttempts + 1) ∧
    (∀ (now : ℤ) (i : Nat) (st : DispatchState) (d : String) (r : Option String),
       MAX_MATCH_ATTEMPTS ≤ st.ride.matchAttempts →
       (handleDriverResponse now i st d RespAction.DECLINE r).2 =
           DispatchResponse.expired "Max match attempts reached" ∧
         (handleDriverResponse now i st d RespAction.DECLINE r).1.ride.status =
           RideStatus.EXPIRED) := by
  refine ⟨dispatchStep_attempts_ge, dispatchStep_attempts_bounded, ?_, ?_,
    hdr_decline_at_max⟩
  · intro g tier now i ops
    exact runDispatch_attempts_bounded ops _ (createRideRequest_attempts_le g tier now i)
  · intro now i st sel rest h
    rw [matchDriver, h]

/-- C8 witness: the invariant applied to the two-driver ride, the by-one
increment at its matched query, and the max-attempts decline at the
exhausted fixture. -/
theorem matchAttempts_invariant_witness :
    ((dispatchStep 0 DispatchOp.cancel stW2).ride.matchAttempts ≤ MAX_MATCH_ATTEMPTS) ∧
    ((matchDriver 0 3 stW2).1.ride.matchAttempts = stW2.ride.matchAttempts + 1) ∧
    ((handleDriverResponse 0 3 stMaxFixture "D1" RespAction.DECLINE none).2 =
        DispatchResponse.expired "Max match attempts reached") :=
  ⟨matchAttempts_invariant.2.1 0 DispatchOp.cancel stW2 (by decide),
   matchAttempts_invariant.2.2.2.1 0 3 stW2 (mkNearbyDriver gW2 ⟨"D1", 0, 0, 0⟩)
     [mkNearbyDriver gW2 ⟨"D2", 1, 0, 0⟩] (by decide),
   (matchAttempts_invariant.2.2.2.2 0 3 stMaxFixture "D1" none (by decide)).1⟩

/-- C1: the ACCEPT branch of `handleDriverResponse` performs no offer or
ride-state validation at all: for every state — whatever the ride status,
current offer, or offer ownership — an ACCEPT succeeds, returns the
accepted result, sets the ride ACCEPTED and overwrites its driver; in
particular a second ACCEPT against an already-ACCEPTED ride succeeds again
instead of failing with OFFER_INVALID (no such failure exists in the code). -/
theorem handleDriverResponse_accept_unguarded :
    ∀ (now : ℤ) (i : Nat) (st : DispatchState) (d d2 : String) (r : Option String),
      (handleDriverResponse now i st d RespAction.ACCEPT r).2 =
          DispatchResponse.accepted d ∧
      (handleDriverResponse now i st d RespAction.ACCEPT r).1.ride.status =
          RideStatus.ACCEPTED ∧
      (handleDriverResponse now i st d RespAction.ACCEPT r).1.ride.driverId = some d ∧
      (handleDriverResponse now i
          (handleDriverResponse now i st d RespAction.ACCEPT r).1 d2
          RespAction.ACCEPT r).2 = DispatchResponse.accepted d2 := by
  intro now i st d d2 r
  exact ⟨rfl, rfl, rfl, rfl⟩

/-- C2: `handleDriverResponse` neither acquires nor inspects the per-ride
lock: the lock flag is invariant under the call, and even while another
handler holds `lock:ride:rideId` an ACCEPT proceeds to mutate the ride and
succeed — the code never returns RIDE_BUSY (no such result exists). -/
theorem handleDriverResponse_ignores_lock :
    ∀ (now : ℤ) (i : Nat) (st : DispatchState) (d : String) (a : RespAction)
      (r : Option String),
      (handleDriverResponse now i st d a r).1.lockHeld = st.lockHeld ∧
      (st.lockHeld = true →
        (handleDriverResponse now i st d RespAction.ACCEPT r).2 =
            DispatchResponse.accepted d ∧
          (handleDriverResponse now i st d RespAction.ACCEPT r).1.ride.status =
            RideStatus.ACCEPTED) := by
  intro now i st d a r
  constructor
  · cases a with
    | ACCEPT => rfl
    | DECLINE =>
      rw [handleDriverResponse]
      dsimp only
      split
      · rfl
      · split
        · rfl
        · dsimp only
          exact matchDriver_lockHeld now i (declineOffers st d r)
  · intro _
    exact ⟨rfl, rfl⟩

/-- C2 witness: with the lock held on the two-driver ride, an ACCEPT by D2
still succeeds. -/
theorem handleDriverResponse_ignores_lock_witness :
    stLockFixture.lockHeld = true ∧
    (handleDriverResponse 0 2 stLockFixture "D2" RespAction.ACCEPT none).2 =
      DispatchResponse.accepted "D2" :=
  ⟨rfl, ((handleDriverResponse_ignores_lock 0 2 stLockFixture "D2"
      RespAction.ACCEPT none).2 rfl).1⟩

/-- C3: with two eligible drivers D1 (closer) and D2, after D1 declines the
response is REASSIGNED but the next PENDING offer targets D1 again, not D2:
the exclusion list is only used for the emptiness check, while `matchDriver`
re-queries without it and picks the nearest driver — the decliner. -/
theorem decline_reoffers_declining_driver :
    (handleDriverResponse 0 2 stW2 "D1" RespAction.DECLINE (some "Too far")).2 =
        DispatchResponse.reassigned ∧
    (handleDriverResponse 0 2 stW2 "D1" RespAction.DECLINE (some "Too far")).1.offers =
        [⟨1, "D1", OfferStatus.DECLINED, some "Too far"⟩,
         ⟨2, "D1", OfferStatus.PENDING, none⟩] ∧
    (handleDriverResponse 0 2 stW2 "D1"
        RespAction.DECLINE (some "Too far")).1.ride.driverId = some "D1" ∧
    (findNearbyDrivers gW2 DEFAULT_SEARCH_RADIUS_KM (some "ECONOMY") 10).map
        NearbyDriver.driverId = ["D1", "D2"] := by
  decide

/-- C4: when the fast-lookup entry `ride:rideId:offer` is absent,
`checkTimeout` returns timedOut = false and changes nothing — no implicit
decline with reason "Timeout" is processed, contrary to the claim that an
absent entry is treated as a timeout. -/
theorem checkTimeout_absent_entry (now : ℤ) (i : Nat) (st : DispatchState)
    (h : st.redisOffer = none) :
    checkTimeout now i st = (st, false) := by
  rw [checkTimeout, h]

/-- C4 witness: the evicted-entry fixture is not timed out. -/
theorem checkTimeout_absent_entry_witness :
    checkTimeout 999999 3 stEvicted = (stEvicted, false) :=
  checkTimeout_absent_entry 999999 3 stEvicted rfl

/-- C9 counterexample: CancelRide on a ride already in the terminal status
ACCEPTED is not a no-op — the stored status is overwritten to CANCELLED. -/
theorem cancelRide_overwrites_terminal :
    stAccepted.ride.status = RideStatus.ACCEPTED ∧
    (cancelRide stAccepted).ride.status = RideStatus.CANCELLED ∧
    (cancelRide stAccepted).ride.status ≠ RideStatus.ACCEPTED := by
  decide

/-- C9 (amended): CancelRide sets the ride status to CANCELLED
unconditionally, for terminal and non-terminal rides alike, and touches
nothing else. -/
theorem cancelRide_sets_cancelled :
    ∀ st : DispatchState,
      (cancelRide st).ride.status = RideStatus.CANCELLED ∧
      (cancelRide st).ride.driverId = st.ride.driverId ∧
      (cancelRide st).ride.currentOfferId = st.ride.currentOfferId ∧
      (cancelRide st).ride.matchAttempts = st.ride.matchAttempts ∧
      (cancelRide st).offers = st.offers ∧
      (cancelRide st).redisOffer = st.redisOffer :=
  fun _ => ⟨rfl, rfl, rfl, rfl, rfl, rfl⟩

/-- C10: the object returned by `createRideRequest` always reports
status 'MATCHING' and matchAttempts 1, and when the nearby query finds no
eligible driver the persisted row is set to NO_DRIVERS and the returned
matchedDriver is null while the returned fields still read MATCHING and 1. -/
theorem createRideRequest_reports_matching :
    ∀ (g : RedisGeo) (tier : Option String) (now : ℤ) (i : Nat),
      (createRideRequest g tier now i).2.status = "MATCHING" ∧
      (createRideRequest g tier now i).2.matchAttempts = 1 ∧
      (findNearbyDrivers g DEFAULT_SEARCH_RADIUS_KM tier 10 = [] →
        (createRideRequest g tier now i).1.ride.status = RideStatus.NO_DRIVERS ∧
        (createRideRequest g tier now i).2.matchedDriver = none) := by
  intro g tier now i
  refine ⟨rfl, rfl, ?_⟩
  intro h
  rw [createRideRequest]
  dsimp only
  rw [matchDriver]
  dsimp only
  rw [h]
  exact ⟨rfl, rfl⟩

/-- C10 witness: creation over an empty region. -/
theorem createRideRequest_reports_matching_witness :
    (createRideRequest gEmpty none 0 1).2.status = "MATCHING" ∧
    ((createRideRequest gEmpty none 0 1).1.ride.status = RideStatus.NO_DRIVERS ∧
     (createRideRequest gEmpty none 0 1).2.matchedDriver = none) :=
  ⟨(createRideRequest_reports_matching gEmpty none 0 1).1,
   (createRideRequest_reports_matching gEmpty none 0 1).2.2 (by decide)⟩

/-- C5: for two create-ride requests under the same idempotency key, the
first runs the handler and caches its response; a second whose request
hashes identically receives the first's cached payload replayed with HTTP
200 without the handler running again; a second with a differing request
hash fails with the HTTP 422 idempotency conflict, the handler not running
and the cache unchanged.  The SHA-256-based `hashRequest` is abstracted as
the deterministic parameter `h`. -/
theorem idempotency_replay_and_conflict :
    ∀ (h : IdemRequest → String) (handler : IdemRequest → Nat × String)
      (r1 r2 : IdemRequest),
      idempotencyStep h none handler r1 =
        (some ⟨(handler r1).1, (handler r1).2, h r1⟩,
         IdemOutcome.fresh (handler r1).1 (handler r1).2) ∧
      (h r1 = h r2 →
        idempotencyStep h (idempotencyStep h none handler r1).1 handler r2 =
          ((idempotencyStep h none handler r1).1,
           IdemOutcome.replayed (handler r1).2)) ∧
      (h r1 ≠ h r2 →
        idempotencyStep h (idempotencyStep h none handler r1).1 handler r2 =
          ((idempotencyStep h none handler r1).1, IdemOutcome.conflict)) := by
  intro h handler r1 r2
  refine ⟨rfl, ?_, ?_⟩
  · intro heq
    simp [idempotencyStep, heq]
  · intro hne
    simp [idempotencyStep, hne]

/-- C5 witness: a concrete replay (same body) and conflict (different body)
under one key. -/
theorem idempotency_witness :
    (hashFixture reqA = hashFixture reqA2 ∧
     idempotencyStep hashFixture (idempotencyStep hashFixture none handlerFixture reqA).1
         handlerFixture reqA2 =
       ((idempotencyStep hashFixture none handlerFixture reqA).1,
        IdemOutcome.replayed (handlerFixture reqA).2)) ∧
    (hashFixture reqA ≠ hashFixture reqB ∧
     idempotencyStep hashFixture (idempotencyStep hashFixture none handlerFixture reqA).1
         handlerFixture reqB =
       ((idempotencyStep hashFixture none handlerFixture reqA).1,
        IdemOutcome.conflict)) :=
  ⟨⟨by decide, (idempotency_replay_and_conflict hashFixture handlerFixture reqA
      reqA2).2.1 (by decide)⟩,
   ⟨by decide, (idempotency_replay_and_conflict hashFixture handlerFixture reqA
      reqB).2.2 (by decide)⟩⟩

end Juber
